import Mathlib

/-!
Verification development for the Project Samarth backend (`app.py`).

The program is embedded shallowly: Python strings become `List Char`,
Python `str.lower` becomes `List.map Char.toLower`, the substring operator
`in` becomes `containsSub`, and the two regular expressions used by
`QueryParser.extract_years` are embedded as explicit scanners
(`scanYears` for `\b(20\d{2})\b` via `re.findall`, `searchLastN` for
`last\s+(\d+)\s+years?` via `re.search`).  Handler results become the
structure `AnswerResult`; the per-handler Python dicts for `metadata`
become association lists over the sum type `MetaVal`.
-/

set_option autoImplicit false

/-- Shorthand turning a Lean string literal into the `List Char` that models
the corresponding Python string. -/
def t (s : String) : List Char := s.toList

/-- Embedding of Python `str.lower()` (ASCII case folding, which agrees with
Python on every character this program manipulates). -/
def lowerL (s : List Char) : List Char := s.map Char.toLower

/-- Prefix test: `startsWithL hs p = true` iff `p` is a prefix of `hs`
(character-by-character comparison). -/
def startsWithL : List Char → List Char → Bool
  | _, [] => true
  | [], _ :: _ => false
  | h :: hs, n :: ns => h == n && startsWithL hs ns

/-- Embedding of Python's substring operator `needle in haystack`:
`containsSub hs p = true` iff `p` occurs contiguously somewhere in `hs`. -/
def containsSub : List Char → List Char → Bool
  | [], p => startsWithL [] p
  | h :: hs, p => startsWithL (h :: hs) p || containsSub hs p

/-- Embedding of the regex class `\s` (the six ASCII whitespace characters
Python's `\s` accepts on ASCII input). -/
def isSpaceChar (c : Char) : Bool :=
  c == ' ' || c == '\t' || c == '\n' || c == '\r' || c == '\x0b' || c == '\x0c'

/-- Embedding of the regex class `\w` on ASCII input: letters, digits and
underscore. -/
def isWordChar (c : Char) : Bool := c.isAlphanum || c == '_'

/-- Numeric value of an ASCII digit character. -/
def digitVal (c : Char) : Nat := c.toNat - '0'.toNat

/-- Embedding of Python `int(...)` on a non-empty string of ASCII digits. -/
def digitsToNat (ds : List Char) : Nat :=
  ds.foldl (fun acc c => 10 * acc + digitVal c) 0

/-- A `\b` word boundary holds at a position whose neighbouring character on
the given side is absent (string edge) or not a word character.  (Both sides
of the regex `\b(20\d{2})\b` are word characters, so the boundary condition
reduces to this test on the outer neighbour.) -/
def boundaryOk : Option Char → Bool
  | none => true
  | some c => !isWordChar c

/-- Embedding of `re.findall(r'\b(20\d{2})\b', query)` followed by `int`:
scan left to right; at each position a match needs the four characters
`2`, `0`, digit, digit with word boundaries on both sides; a match is
consumed whole (`re.findall` resumes after the matched text).  `prev` is the
character immediately before the current position (`none` at the start). -/
def scanYears : Option Char → List Char → List Int
  | prev, c1 :: c2 :: c3 :: c4 :: rest =>
    if c1 == '2' && c2 == '0' && c3.isDigit && c4.isDigit
        && boundaryOk prev && boundaryOk rest.head? then
      ((2000 + 10 * digitVal c3 + digitVal c4 : Nat) : Int)
        :: scanYears (some c4) rest
    else
      scanYears (some c1) (c2 :: c3 :: c4 :: rest)
  | _, _ => []

/-- Attempt to match `last\s+(\d+)\s+years?` at the head of the list,
returning `int(group(1))` on success.  Greedy `\s+`/`\d+` runs cannot
backtrack usefully here because `\s`, `\d` and the literals are disjoint, so
each run is simply maximal. -/
def matchLastNAt : List Char → Option Nat
  | 'l' :: 'a' :: 's' :: 't' :: rest =>
    let sp1 := rest.takeWhile isSpaceChar
    let r1 := rest.dropWhile isSpaceChar
    if sp1.isEmpty then none else
    let ds := r1.takeWhile Char.isDigit
    let r2 := r1.dropWhile Char.isDigit
    if ds.isEmpty then none else
    let sp2 := r2.takeWhile isSpaceChar
    let r3 := r2.dropWhile isSpaceChar
    if sp2.isEmpty then none else
    match r3 with
    | 'y' :: 'e' :: 'a' :: 'r' :: _ => some (digitsToNat ds)
    | _ => none
  | _ => none

/-- Embedding of `re.search(r'last\s+(\d+)\s+years?', s)`: leftmost position
at which the pattern matches, returning the matched count. -/
def searchLastN : List Char → Option Nat
  | [] => none
  | c :: rest =>
    match matchLastNAt (c :: rest) with
    | some n => some n
    | none => searchLastN rest

/-- Embedding of Python `list(range(a, b))` over integers. -/
def pyRange (a b : Int) : List Int :=
  (List.range (b - a).toNat).map (fun i : Nat => a + (i : Int))

/-- Embedding of Python `min` on a list of ints.  Python raises on `[]`; the
program never reaches that case (`extract_years` never returns `[]`), so the
`[]` branch is an arbitrary total completion. -/
def listMin : List Int → Int
  | [] => 0
  | x :: xs => xs.foldl min x

/-- Embedding of Python `max` on a list of ints (same totalisation note as
`listMin`). -/
def listMax : List Int → Int
  | [] => 0
  | x :: xs => xs.foldl max x

/-- Embedding of Python `str` on an int (decimal rendering). -/
def intToStr (n : Int) : List Char := (toString n).toList

/-- Embedding of Python `sep.join(parts)`. -/
def joinSep (sep : List Char) : List (List Char) → List Char
  | [] => []
  | [x] => x
  | x :: y :: ys => x ++ sep ++ joinSep sep (y :: ys)

namespace QueryParser

/-- The canonical state list `QueryParser.STATES` from `app.py`. -/
def STATES : List (List Char) :=
  [t "Punjab", t "Haryana", t "Uttar Pradesh", t "Madhya Pradesh", t "Bihar",
   t "West Bengal", t "Gujarat", t "Maharashtra", t "Karnataka", t "Tamil Nadu",
   t "Andhra Pradesh", t "Telangana", t "Rajasthan", t "Odisha", t "Chhattisgarh",
   t "Jharkhand", t "Assam", t "Kerala", t "Himachal Pradesh", t "Uttarakhand"]

/-- The canonical crop list `QueryParser.CROPS` from `app.py`. -/
def CROPS : List (List Char) :=
  [t "Rice", t "Wheat", t "Maize", t "Bajra", t "Jowar", t "Ragi", t "Barley",
   t "Cotton", t "Jute", t "Sugarcane", t "Groundnut", t "Soybean", t "Sunflower",
   t "Mustard", t "Coconut", t "Tea", t "Coffee", t "Rubber", t "Potato", t "Onion"]

/-- Embedding of `QueryParser.extract_states`: collect, in canonical-list order, the states
whose lower-cased name is a substring of the lower-cased query. -/
def extract_states (query : List Char) : List (List Char) :=
  STATES.filter (fun s => containsSub (lowerL query) (lowerL s))

/-- Embedding of `QueryParser.extract_crops`: same algorithm over the crop list. -/
def extract_crops (query : List Char) : List (List Char) :=
  CROPS.filter (fun c => containsSub (lowerL query) (lowerL c))

/-- Embedding of `QueryParser.extract_years`: explicit `20\d\d` tokens, overridden by a
`last N years` phrase, with the fixed fallback window when empty. -/
def extract_years (query : List Char) : List Int :=
  let explicit := scanYears none query
  let years :=
    match searchLastN (lowerL query) with
    | some n => pyRange (2023 - (n : Int) + 1) (2023 + 1)
    | none => explicit
  if years.isEmpty then [2020, 2021, 2022, 2023] else years

/-- Embedding of `QueryParser.classify_query`: priority-ordered substring tests. -/
def classify_query (query : List Char) : List Char :=
  let ql := lowerL query
  if containsSub ql (t "compare") && containsSub ql (t "rainfall") then
    t "rainfall_comparison"
  else if containsSub ql (t "highest") || containsSub ql (t "lowest") then
    t "production_extremes"
  else if containsSub ql (t "trend") then
    t "trend_analysis"
  else if containsSub ql (t "rainfall") then
    t "rainfall_query"
  else if containsSub ql (t "production") || containsSub ql (t "crop") then
    t "production_query"
  else
    t "general"

end QueryParser

example : QueryParser.classify_query (t "Compare rainfall and show highest state") =
    t "rainfall_comparison" := by decide

example : QueryParser.extract_years (t "last 5 years") =
    [2019, 2020, 2021, 2022, 2023] := by decide

example : QueryParser.extract_years (t "data from 2019 and 2021") =
    [2019, 2021] := by decide

example : QueryParser.extract_years (t "tell me about crops") =
    [2020, 2021, 2022, 2023] := by decide

example : QueryParser.extract_years (t "last 0 years") =
    [2020, 2021, 2022, 2023] := by decide

example : QueryParser.extract_states (t "compare rainfall in punjab and haryana") =
    [t "Punjab", t "Haryana"] := by decide

example : QueryParser.extract_years (t "in 2019, 20202 and 2021x") = [2019] := by decide

/-- One value of the (dynamically typed) Python `metadata` dict: the handlers
store string lists, int lists, a single int, or a single string. -/
inductive MetaVal where
  | strList : List (List Char) → MetaVal
  | intList : List Int → MetaVal
  | intVal : Int → MetaVal
  | strVal : List Char → MetaVal
deriving DecidableEq

/-- A citation record as built by the handlers (`resource_id` is absent in
the general handler's citation). -/
structure Citation where
  dataset : List Char
  source : List Char
  url : List Char
  resource_id : Option (List Char)
deriving DecidableEq

/-- The dict returned by every handler: `answer`, `sources`, and the
optional `metadata` key (modelled as an association list). -/
structure AnswerResult where
  answer : List Char
  sources : List Citation
  metadata : Option (List (List Char × MetaVal))
deriving DecidableEq

/-- Constant `DATASETS['crop_production']` from `app.py`. -/
def crop_production_resource : List Char := t "9ef84268-d588-465a-a308-a864a43d0070"

/-- Constant `DATASETS['rainfall']` from `app.py`. -/
def rainfall_resource : List Char := t "e9aafad3-6a08-4f66-b59d-38c65e7ae44f"

/-- The rainfall citation built in `handle_rainfall_comparison`. -/
def rainfallCitation : Citation where
  dataset := t "Rainfall in India"
  source := t "India Meteorological Department (IMD)"
  url := t "https://www.data.gov.in/catalog/rainfall-india"
  resource_id := some rainfall_resource

/-- The crop-production citation built in `handle_rainfall_comparison` and
`handle_production_query`. -/
def cropProductionCitation : Citation where
  dataset := t "District-wise Crop Production Statistics"
  source := t "Ministry of Agriculture & Farmers Welfare"
  url := t "https://www.data.gov.in/catalog/district-wise-season-wise-crop-production-statistics-0"
  resource_id := some crop_production_resource

/-- The crop-production citation built in `handle_production_extremes`
(its `source` string differs from `cropProductionCitation`). -/
def cropProductionCitationExtremes : Citation where
  dataset := t "District-wise Crop Production Statistics"
  source := t "Ministry of Agriculture & Farmers Welfare, Directorate of Economics and Statistics"
  url := t "https://www.data.gov.in/catalog/district-wise-season-wise-crop-production-statistics-0"
  resource_id := some crop_production_resource

/-- The platform citation built in `handle_general` (no `resource_id`). -/
def platformCitation : Citation where
  dataset := t "Open Government Data Platform"
  source := t "Government of India"
  url := t "https://www.data.gov.in"
  resource_id := none

namespace AnswerGenerator

open QueryParser

/-- The answer text assembled by `handle_rainfall_comparison` in its
successful branch, with `s0 = states[0]`, `s1 = states[1]`. -/
def rainfallComparisonAnswer (s0 s1 : List Char) (years : List Int) : List Char :=
  t "**Rainfall Comparison Analysis ("
    ++ intToStr (listMin years) ++ t "-" ++ intToStr (listMax years) ++ t ")**\n\n"
    ++ t "**" ++ s0 ++ t ":**\n"
    ++ t "- Average annual rainfall: 850mm\n"
    ++ t "- Monsoon contribution: 75%\n"
    ++ t "- Winter rainfall: 15%\n"
    ++ t "- Pre-monsoon: 10%\n\n"
    ++ t "**" ++ s1 ++ t ":**\n"
    ++ t "- Average annual rainfall: 720mm\n"
    ++ t "- Monsoon contribution: 70%\n"
    ++ t "- Winter rainfall: 20%\n"
    ++ t "- Pre-monsoon: 10%\n\n"
    ++ t "**Top 3 Most Produced Crops:**\n\n"
    ++ t "**" ++ s0 ++ t ":**\n"
    ++ t "1. Wheat - 18.5 million tonnes/year\n"
    ++ t "2. Rice - 12.3 million tonnes/year\n"
    ++ t "3. Cotton - 1.8 million tonnes/year\n\n"
    ++ t "**" ++ s1 ++ t ":**\n"
    ++ t "1. Wheat - 11.2 million tonnes/year\n"
    ++ t "2. Rice - 4.5 million tonnes/year\n"
    ++ t "3. Sugarcane - 3.1 million tonnes/year\n"

/-- Embedding of `AnswerGenerator.handle_rainfall_comparison`. -/
def handle_rainfall_comparison (states : List (List Char)) (years : List Int) :
    AnswerResult :=
  if states.length < 2 then
    { answer := t "⚠️ Please specify at least two states to compare rainfall."
      sources := []
      metadata := none }
  else
    { answer := rainfallComparisonAnswer (states.getD 0 []) (states.getD 1 []) years
      sources := [rainfallCitation, cropProductionCitation]
      metadata := some
        [(t "states", MetaVal.strList states),
         (t "years", MetaVal.intList years),
         (t "query_type", MetaVal.strVal (t "rainfall_comparison"))] }

/-- The header line of `handle_production_extremes`. -/
def productionExtremesHeader (crop : List Char) (year : Int) : List Char :=
  t "**Production Analysis: " ++ crop ++ t " (" ++ intToStr year ++ t ")**\n\n"

/-- The two-state body appended by `handle_production_extremes` when
`len(states) >= 2`. -/
def productionExtremesBody (s0 s1 : List Char) : List Char :=
  t "**" ++ s0 ++ t ":**\n"
    ++ t "- Highest producing district: Ludhiana\n"
    ++ t "- Production: 2,450,000 tonnes\n"
    ++ t "- Share of state production: 35%\n"
    ++ t "- Key factors: Extensive irrigation, fertile soil, modern farming techniques\n\n"
    ++ t "**" ++ s1 ++ t ":**\n"
    ++ t "- Lowest producing district: Panchkula\n"
    ++ t "- Production: 45,000 tonnes\n"
    ++ t "- Share of state production: 0.8%\n"
    ++ t "- Key factors: Hilly terrain, limited irrigation infrastructure\n\n"
    ++ t "**Analysis:** The production difference of ~54x highlights the critical role of "
    ++ t "geographical factors and agricultural infrastructure in crop yields."

/-- The local `year = max(years) if years else 2023` of
`handle_production_extremes`. -/
def productionExtremesYear (years : List Int) : Int :=
  if years.isEmpty then 2023 else listMax years

/-- Embedding of `AnswerGenerator.handle_production_extremes`. -/
def handle_production_extremes (states crops : List (List Char)) (years : List Int) :
    AnswerResult :=
  if states.isEmpty || crops.isEmpty then
    { answer := t "⚠️ Please specify both states and crops for production analysis."
      sources := []
      metadata := none }
  else
    { answer :=
        if 2 ≤ states.length then
          productionExtremesHeader (crops.getD 0 []) (productionExtremesYear years)
            ++ productionExtremesBody (states.getD 0 []) (states.getD 1 [])
        else
          productionExtremesHeader (crops.getD 0 []) (productionExtremesYear years)
      sources := [cropProductionCitationExtremes]
      metadata := some
        [(t "states", MetaVal.strList states),
         (t "crops", MetaVal.strList crops),
         (t "year", MetaVal.intVal (productionExtremesYear years))] }

/-- Embedding of `AnswerGenerator.handle_production_query`. -/
def handle_production_query (states crops : List (List Char)) (years : List Int) :
    AnswerResult :=
  { answer :=
      t "**Crop Production Analysis**\n\n"
        ++ (if crops.isEmpty then []
            else t "**Crops:** " ++ joinSep (t ", ") crops ++ t "\n")
        ++ (if states.isEmpty then []
            else t "**States:** " ++ joinSep (t ", ") states ++ t "\n")
        ++ (if years.isEmpty then []
            else t "**Period:** " ++ intToStr (listMin years) ++ t "-"
              ++ intToStr (listMax years) ++ t "\n\n")
        ++ t "Based on data from the Ministry of Agriculture & Farmers Welfare, "
        ++ t "crop production patterns vary significantly across regions based on "
        ++ t "climate, soil conditions, and irrigation infrastructure.\n\n"
        ++ t "For detailed analysis, please specify:\n"
        ++ t "- Comparison type (highest/lowest)\n"
        ++ t "- Specific districts or regions\n"
        ++ t "- Time period for trend analysis"
    sources := [cropProductionCitation]
    metadata := none }

/-- The `context_parts` list assembled by `handle_general` from the
extracted entities. -/
def generalContextParts (states crops : List (List Char)) (years : List Int) :
    List (List Char) :=
  (if states.isEmpty then [] else [t "States: " ++ joinSep (t ", ") states])
    ++ (if crops.isEmpty then [] else [t "Crops: " ++ joinSep (t ", ") crops])
    ++ (if years.isEmpty then []
        else [t "Years: " ++ joinSep (t ", ") (years.map intToStr)])

/-- The `context` string computed by `handle_general`
(`" | ".join(context_parts)` with the `"General inquiry"` default). -/
def generalContext (states crops : List (List Char)) (years : List Int) : List Char :=
  if (generalContextParts states crops years).isEmpty then t "General inquiry"
  else joinSep (t " | ") (generalContextParts states crops years)

/-- The fixed help text that follows the detected context in
`handle_general`. -/
def generalHelpText : List Char :=
  t "\n\nI can help you analyze data from data.gov.in including:\n\n"
    ++ t "**Rainfall Analysis:**\n"
    ++ t "- Compare rainfall patterns between states\n"
    ++ t "- Seasonal distribution analysis\n"
    ++ t "- Historical trends and anomalies\n\n"
    ++ t "**Crop Production:**\n"
    ++ t "- State and district-wise production statistics\n"
    ++ t "- Top producing regions identification\n"
    ++ t "- Year-over-year production trends\n\n"
    ++ t "**Correlations:**\n"
    ++ t "- Impact of rainfall on crop yields\n"
    ++ t "- Regional suitability analysis\n"
    ++ t "- Climate-agriculture relationships\n\n"
    ++ t "**Example Questions:**\n"
    ++ t "- \"Compare rainfall in Punjab and Haryana for last 5 years\"\n"
    ++ t "- \"Highest wheat production district in Punjab in 2023\"\n"
    ++ t "- \"Production trend of rice in West Bengal over last decade\"\n\n"
    ++ t "Please rephrase your question with specific states, crops, and time periods for detailed analysis."

/-- Embedding of `AnswerGenerator.handle_general`.  (The raw query argument is accepted as
in the source but unused by the handler body.) -/
def handle_general (_query : List Char) (states crops : List (List Char))
    (years : List Int) : AnswerResult :=
  { answer :=
      t "**Agricultural Data Analysis Request**\n\n**Detected Context:** "
        ++ generalContext states crops years
        ++ generalHelpText
    sources := [platformCitation]
    metadata := none }

/-- Embedding of `AnswerGenerator.answer_query`: classify, extract, and dispatch to
exactly one handler. -/
def answer_query (query : List Char) : AnswerResult :=
  let query_type := classify_query query
  let states := extract_states query
  let crops := extract_crops query
  let years := extract_years query
  if query_type = t "rainfall_comparison" then
    handle_rainfall_comparison states years
  else if query_type = t "production_extremes" then
    handle_production_extremes states crops years
  else if query_type = t "production_query" then
    handle_production_query states crops years
  else
    handle_general query states crops years

end AnswerGenerator

example :
    (AnswerGenerator.answer_query
      (t "Compare rainfall in Punjab and Haryana for last 5 years")).sources.length = 2 := by
  decide

example :
    (AnswerGenerator.answer_query (t "hello")).sources = [platformCitation] := by
  decide

example :
    (AnswerGenerator.handle_production_extremes [t "Punjab"] [t "Wheat"] [2023]).answer =
      t "**Production Analysis: Wheat (2023)**\n\n" := by
  decide

/-! ### Helper lemmas about the string primitives -/

theorem startsWithL_nil_right (hs : List Char) : startsWithL hs [] = true := by
  cases hs <;> rfl

theorem startsWithL_append (p rest : List Char) : startsWithL (p ++ rest) p = true := by
  induction p with
  | nil => exact startsWithL_nil_right _
  | cons c ps ih => simp [startsWithL, ih]

theorem startsWithL_mono {hs p : List Char} (rest : List Char)
    (h : startsWithL hs p = true) : startsWithL (hs ++ rest) p = true := by
  induction p generalizing hs with
  | nil => exact startsWithL_nil_right _
  | cons c ps ih =>
    cases hs with
    | nil => simp [startsWithL] at h
    | cons a as =>
      simp only [startsWithL, Bool.and_eq_true] at h ⊢
      exact ⟨h.1, ih h.2⟩

theorem containsSub_of_startsWithL {hs p : List Char} (h : startsWithL hs p = true) :
    containsSub hs p = true := by
  cases hs with
  | nil => exact h
  | cons c cs => simp [containsSub, h]

theorem containsSub_nil_needle (hs : List Char) : containsSub hs [] = true := by
  cases hs with
  | nil => rfl
  | cons c cs => simp [containsSub, startsWithL]

theorem containsSub_append_left {a p : List Char} (b : List Char)
    (h : containsSub a p = true) : containsSub (a ++ b) p = true := by
  induction a with
  | nil =>
    cases p with
    | nil => exact containsSub_nil_needle _
    | cons x xs => simp [containsSub, startsWithL] at h
  | cons c cs ih =>
    simp only [containsSub, Bool.or_eq_true] at h
    rcases h with h | h
    · exact containsSub_of_startsWithL (startsWithL_mono b h)
    · simp only [List.cons_append, containsSub, Bool.or_eq_true]
      exact Or.inr (ih h)

theorem containsSub_append_right (a : List Char) {b p : List Char}
    (h : containsSub b p = true) : containsSub (a ++ b) p = true := by
  induction a with
  | nil => exact h
  | cons c cs ih =>
    simp only [List.cons_append, containsSub, Bool.or_eq_true]
    exact Or.inr ih

theorem containsSub_middle (a b p : List Char) : containsSub (a ++ (p ++ b)) p = true :=
  containsSub_append_right a
    (containsSub_of_startsWithL (startsWithL_append p b))

theorem ne_of_containsSub {a b p : List Char} (h : containsSub a p = true)
    (h2 : containsSub b p = false) : a ≠ b := by
  intro hab
  rw [hab, h2] at h
  cases h

theorem containsSub_joinSep {sep p : List Char} {parts : List (List Char)}
    {x : List Char} (hx : x ∈ parts) (h : containsSub x p = true) :
    containsSub (joinSep sep parts) p = true := by
  induction parts with
  | nil => cases hx
  | cons y ys ih =>
    cases ys with
    | nil =>
      rcases List.mem_singleton.mp hx with rfl
      exact h
    | cons z zs =>
      rcases List.mem_cons.mp hx with rfl | hx'
      · exact containsSub_append_left _ (containsSub_append_left _ h)
      · exact containsSub_append_right _ (ih hx')

theorem two_le_length_of_mem {α : Type} {a b : α} {l : List α}
    (ha : a ∈ l) (hb : b ∈ l) (hne : a ≠ b) : 2 ≤ l.length := by
  induction l with
  | nil => cases ha
  | cons x xs ih =>
    rcases List.mem_cons.mp ha with rfl | ha'
    · rcases List.mem_cons.mp hb with rfl | hb'
      · exact absurd rfl hne
      · have h1 : 0 < xs.length := List.length_pos.mpr (List.ne_nil_of_mem hb')
        simp only [List.length_cons]
        omega
    · have h1 : 0 < xs.length := List.length_pos.mpr (List.ne_nil_of_mem ha')
      simp only [List.length_cons]
      omega

/-! ### Helper lemmas about the parser and dispatcher -/

/-- The function `extract_years` never returns the empty list (the fallback
window covers every branch). -/
theorem extract_years_ne_nil (q : List Char) : QueryParser.extract_years q ≠ [] := by
  unfold QueryParser.extract_years
  cases h : searchLastN (lowerL q) with
  | none =>
    simp only [h]
    split
    · decide
    · next hne => exact fun hc => hne (by rw [hc]; rfl)
  | some n =>
    simp only [h]
    split
    · decide
    · next hne => exact fun hc => hne (by rw [hc]; rfl)

theorem answer_query_eq_rc {q : List Char}
    (h : QueryParser.classify_query q = t "rainfall_comparison") :
    AnswerGenerator.answer_query q =
      AnswerGenerator.handle_rainfall_comparison
        (QueryParser.extract_states q) (QueryParser.extract_years q) := by
  unfold AnswerGenerator.answer_query
  simp only [h, if_true]

theorem answer_query_eq_pe {q : List Char}
    (h : QueryParser.classify_query q = t "production_extremes") :
    AnswerGenerator.answer_query q =
      AnswerGenerator.handle_production_extremes
        (QueryParser.extract_states q) (QueryParser.extract_crops q)
        (QueryParser.extract_years q) := by
  unfold AnswerGenerator.answer_query
  simp only [h, if_true]
  rw [if_neg (by decide)]

theorem answer_query_eq_pq {q : List Char}
    (h : QueryParser.classify_query q = t "production_query") :
    AnswerGenerator.answer_query q =
      AnswerGenerator.handle_production_query
        (QueryParser.extract_states q) (QueryParser.extract_crops q)
        (QueryParser.extract_years q) := by
  unfold AnswerGenerator.answer_query
  simp only [h, if_true]
  rw [if_neg (by decide), if_neg (by decide)]

theorem answer_query_eq_general {q : List Char}
    (h1 : QueryParser.classify_query q ≠ t "rainfall_comparison")
    (h2 : QueryParser.classify_query q ≠ t "production_extremes")
    (h3 : QueryParser.classify_query q ≠ t "production_query") :
    AnswerGenerator.answer_query q =
      AnswerGenerator.handle_general q
        (QueryParser.extract_states q) (QueryParser.extract_crops q)
        (QueryParser.extract_years q) := by
  unfold AnswerGenerator.answer_query
  rw [if_neg h1, if_neg h2, if_neg h3]

/-! ### Claim theorems -/

/-- Claim C1: `classify_query` applies case-insensitive substring tests in
the fixed priority order (1) compare∧rainfall → rainfall_comparison,
(2) highest∨lowest → production_extremes, (3) trend → trend_analysis,
(4) rainfall → rainfall_query, (5) production∨crop → production_query,
(6) otherwise general, first match winning; in particular a query containing
"compare", "rainfall" and "highest" is classified rainfall_comparison. -/
theorem classify_query_priority (q : List Char) :
    (containsSub (lowerL q) (t "compare") = true ∧
        containsSub (lowerL q) (t "rainfall") = true →
      QueryParser.classify_query q = t "rainfall_comparison") ∧
    ((containsSub (lowerL q) (t "compare") = false ∨
        containsSub (lowerL q) (t "rainfall") = false) →
      (containsSub (lowerL q) (t "highest") = true ∨
        containsSub (lowerL q) (t "lowest") = true) →
      QueryParser.classify_query q = t "production_extremes") ∧
    ((containsSub (lowerL q) (t "compare") = false ∨
        containsSub (lowerL q) (t "rainfall") = false) →
      containsSub (lowerL q) (t "highest") = false →
      containsSub (lowerL q) (t "lowest") = false →
      containsSub (lowerL q) (t "trend") = true →
      QueryParser.classify_query q = t "trend_analysis") ∧
    (containsSub (lowerL q) (t "compare") = false →
      containsSub (lowerL q) (t "highest") = false →
      containsSub (lowerL q) (t "lowest") = false →
      containsSub (lowerL q) (t "trend") = false →
      containsSub (lowerL q) (t "rainfall") = true →
      QueryParser.classify_query q = t "rainfall_query") ∧
    (containsSub (lowerL q) (t "highest") = false →
      containsSub (lowerL q) (t "lowest") = false →
      containsSub (lowerL q) (t "trend") = false →
      containsSub (lowerL q) (t "rainfall") = false →
      (containsSub (lowerL q) (t "production") = true ∨
        containsSub (lowerL q) (t "crop") = true) →
      QueryParser.classify_query q = t "production_query") ∧
    (containsSub (lowerL q) (t "highest") = false →
      containsSub (lowerL q) (t "lowest") = false →
      containsSub (lowerL q) (t "trend") = false →
      containsSub (lowerL q) (t "rainfall") = false →
      containsSub (lowerL q) (t "production") = false →
      containsSub (lowerL q) (t "crop") = false →
      QueryParser.classify_query q = t "general") ∧
    (containsSub (lowerL q) (t "compare") = true →
      containsSub (lowerL q) (t "rainfall") = true →
      containsSub (lowerL q) (t "highest") = true →
      QueryParser.classify_query q = t "rainfall_comparison") := by
  refine ⟨?_, ?_, ?_, ?_, ?_, ?_, ?_⟩
  · rintro ⟨h1, h2⟩
    simp [QueryParser.classify_query, h1, h2]
  · rintro (hc | hc) (hh | hh) <;>
      simp [QueryParser.classify_query, hc, hh]
  · rintro (hc | hc) hh hl ht <;>
      simp [QueryParser.classify_query, hc, hh, hl, ht]
  · intro hc hh hl ht hr
    simp [QueryParser.classify_query, hc, hh, hl, ht, hr]
  · rintro hh hl ht hr (hp | hp) <;>
      simp [QueryParser.classify_query, hh, hl, ht, hr, hp]
  · intro hh hl ht hr hp hcr
    simp [QueryParser.classify_query, hh, hl, ht, hr, hp, hcr]
  · intro h1 h2 _
    simp [QueryParser.classify_query, h1, h2]

/-- Witness for C1 at the spec's own example query. -/
theorem classify_query_priority_witness :
    QueryParser.classify_query (t "Compare rainfall and show highest state") =
      t "rainfall_comparison" :=
  (classify_query_priority _).1 ⟨by decide, by decide⟩

/-- Claim C2 (amended): when the lower-cased query contains a
`last <N> years` phrase whose leftmost match has `N ≥ 1`, `extract_years`
returns exactly the ascending inclusive sequence `[2023 - N + 1 .. 2023]`,
discarding any explicit 4-digit years also present. -/
theorem extract_years_lastN (q : List Char) (n : Nat)
    (h : searchLastN (lowerL q) = some n) (hn : 0 < n) :
    QueryParser.extract_years q =
      (List.range n).map (fun i : Nat => (2023 - (n : Int) + 1) + (i : Int)) := by
  have hr : pyRange (2023 - (n : Int) + 1) (2023 + 1) =
      (List.range n).map (fun i : Nat => (2023 - (n : Int) + 1) + (i : Int)) := by
    unfold pyRange
    have : ((2023 + 1 : Int) - (2023 - (n : Int) + 1)).toNat = n := by omega
    rw [this]
  have hlen : (pyRange (2023 - (n : Int) + 1) (2023 + 1)).length = n := by
    rw [hr]
    simp
  have hnil : pyRange (2023 - (n : Int) + 1) (2023 + 1) ≠ [] := by
    intro hc
    rw [hc] at hlen
    simp at hlen
    omega
  unfold QueryParser.extract_years
  simp only [h]
  rw [if_neg (by simpa using hnil)]
  exact hr

/-- Witness for C2 at the spec's example "last 5 years". -/
theorem extract_years_lastN_witness :
    QueryParser.extract_years (t "last 5 years") =
      [(2019 : Int), 2020, 2021, 2022, 2023] :=
  (extract_years_lastN (t "last 5 years") 5 (by decide) (by decide)).trans (by decide)

/-- Counterexample to C2 as stated: "last 0 years" matches the phrase with
N = 0, for which the claimed sequence `[2023 - 0 + 1 .. 2023]` is empty, yet
`extract_years` returns the fallback window, not the empty list. -/
theorem extract_years_last0_counterexample :
    searchLastN (lowerL (t "last 0 years")) = some 0 ∧
    QueryParser.extract_years (t "last 0 years") ≠ [] ∧
    QueryParser.extract_years (t "last 0 years") = [2020, 2021, 2022, 2023] := by
  decide

/-- Claim C3: `extract_years` always returns a non-empty list; when no
word-bounded `20\d\d` token and no `last N years` phrase occurs — and also
when the phrase occurs with N = 0, so the computed range is empty — it
returns the fixed fallback `[2020, 2021, 2022, 2023]`. -/
theorem extract_years_nonempty (q : List Char) :
    QueryParser.extract_years q ≠ [] ∧
    (scanYears none q = [] → searchLastN (lowerL q) = none →
      QueryParser.extract_years q = [2020, 2021, 2022, 2023]) ∧
    (searchLastN (lowerL q) = some 0 →
      QueryParser.extract_years q = [2020, 2021, 2022, 2023]) := by
  refine ⟨extract_years_ne_nil q, ?_, ?_⟩
  · intro h1 h2
    unfold QueryParser.extract_years
    simp [h1, h2]
  · intro h
    unfold QueryParser.extract_years
    simp only [h]
    rw [if_pos (by decide)]

/-- Witness for C3 at the spec's example "tell me about crops". -/
theorem extract_years_nonempty_witness :
    QueryParser.extract_years (t "tell me about crops") = [2020, 2021, 2022, 2023] :=
  (extract_years_nonempty (t "tell me about crops")).2.1 (by decide) (by decide)

/-- Claim C4: a query containing two distinct canonical state names plus
"compare" and "rainfall" (all as case-insensitive substrings, any order) is
classified rainfall_comparison, and `answer_query` returns exactly 2
citation records and a non-empty metadata map whose states entry holds both
matched names. -/
theorem rainfall_comparison_contract (q s1 s2 : List Char)
    (hs1 : s1 ∈ QueryParser.STATES) (hs2 : s2 ∈ QueryParser.STATES)
    (hne : s1 ≠ s2)
    (hq1 : containsSub (lowerL q) (lowerL s1) = true)
    (hq2 : containsSub (lowerL q) (lowerL s2) = true)
    (hc : containsSub (lowerL q) (t "compare") = true)
    (hr : containsSub (lowerL q) (t "rainfall") = true) :
    QueryParser.classify_query q = t "rainfall_comparison" ∧
    (AnswerGenerator.answer_query q).sources.length = 2 ∧
    ∃ md, (AnswerGenerator.answer_query q).metadata = some md ∧ md ≠ [] ∧
      (t "states", MetaVal.strList (QueryParser.extract_states q)) ∈ md ∧
      s1 ∈ QueryParser.extract_states q ∧ s2 ∈ QueryParser.extract_states q := by
  have hclass : QueryParser.classify_query q = t "rainfall_comparison" := by
    simp [QueryParser.classify_query, hc, hr]
  have hroute := answer_query_eq_rc hclass
  have hm1 : s1 ∈ QueryParser.extract_states q := by
    unfold QueryParser.extract_states
    exact List.mem_filter.mpr ⟨hs1, hq1⟩
  have hm2 : s2 ∈ QueryParser.extract_states q := by
    unfold QueryParser.extract_states
    exact List.mem_filter.mpr ⟨hs2, hq2⟩
  have hlen : 2 ≤ (QueryParser.extract_states q).length :=
    two_le_length_of_mem hm1 hm2 hne
  have hnot : ¬ (QueryParser.extract_states q).length < 2 := by omega
  have hres : AnswerGenerator.answer_query q =
      { answer := AnswerGenerator.rainfallComparisonAnswer
          ((QueryParser.extract_states q).getD 0 [])
          ((QueryParser.extract_states q).getD 1 [])
          (QueryParser.extract_years q)
        sources := [rainfallCitation, cropProductionCitation]
        metadata := some
          [(t "states", MetaVal.strList (QueryParser.extract_states q)),
           (t "years", MetaVal.intList (QueryParser.extract_years q)),
           (t "query_type", MetaVal.strVal (t "rainfall_comparison"))] } := by
    rw [hroute]
    unfold AnswerGenerator.handle_rainfall_comparison
    rw [if_neg hnot]
  refine ⟨hclass, ?_, ?_⟩
  · rw [hres]
    rfl
  · rw [hres]
    exact ⟨_, rfl, by simp, List.mem_cons_self _ _, hm1, hm2⟩

/-- Witness for C4 on a concrete comparison query. -/
theorem rainfall_comparison_contract_witness :
    (AnswerGenerator.answer_query
      (t "Compare rainfall in Punjab and Haryana")).sources.length = 2 :=
  (rainfall_comparison_contract (t "Compare rainfall in Punjab and Haryana")
    (t "Punjab") (t "Haryana") (by decide) (by decide) (by decide)
    (by decide) (by decide) (by decide) (by decide)).2.1

/-- Claim C5: given fewer than two states, the rainfall-comparison handler —
and given no states or no crops, the production-extremes handler — returns a
successful result whose answer is a warning string beginning with the
warning marker, with empty sources and no metadata field. -/
theorem insufficient_entities_warning :
    (∀ (states : List (List Char)) (years : List Int), states.length < 2 →
      AnswerGenerator.handle_rainfall_comparison states years =
        { answer := t "⚠️ Please specify at least two states to compare rainfall."
          sources := []
          metadata := none } ∧
      startsWithL (AnswerGenerator.handle_rainfall_comparison states years).answer
        (t "⚠️") = true) ∧
    (∀ (states crops : List (List Char)) (years : List Int),
      states = [] ∨ crops = [] →
      AnswerGenerator.handle_production_extremes states crops years =
        { answer := t "⚠️ Please specify both states and crops for production analysis."
          sources := []
          metadata := none } ∧
      startsWithL (AnswerGenerator.handle_production_extremes states crops years).answer
        (t "⚠️") = true) := by
  constructor
  · intro states years h
    have he : AnswerGenerator.handle_rainfall_comparison states years =
        { answer := t "⚠️ Please specify at least two states to compare rainfall."
          sources := []
          metadata := none } := by
      unfold AnswerGenerator.handle_rainfall_comparison
      rw [if_pos h]
    exact ⟨he, by rw [he]; decide⟩
  · intro states crops years h
    have he : AnswerGenerator.handle_production_extremes states crops years =
        { answer := t "⚠️ Please specify both states and crops for production analysis."
          sources := []
          metadata := none } := by
      unfold AnswerGenerator.handle_production_extremes
      rcases h with rfl | rfl
      · rw [if_pos (by simp)]
      · rw [if_pos (by simp)]
    exact ⟨he, by rw [he]; decide⟩

/-- Witness for C5: one state only, and an empty-crops extremes call. -/
theorem insufficient_entities_warning_witness :
    AnswerGenerator.handle_rainfall_comparison [t "Punjab"] [2023] =
      { answer := t "⚠️ Please specify at least two states to compare rainfall."
        sources := []
        metadata := none } :=
  (insufficient_entities_warning.1 [t "Punjab"] [2023] (by decide)).1

/-- Claim C6: the production-extremes handler with exactly one state and at
least one crop returns only the header line built from `crops[0]` and the
chosen year (no district body), yet sources still holds exactly one citation
record, and metadata echoes states, crops and the year. -/
theorem production_extremes_single_state (st c : List Char)
    (cs : List (List Char)) (years : List Int) :
    AnswerGenerator.handle_production_extremes [st] (c :: cs) years =
      { answer := AnswerGenerator.productionExtremesHeader c
          (AnswerGenerator.productionExtremesYear years)
        sources := [cropProductionCitationExtremes]
        metadata := some
          [(t "states", MetaVal.strList [st]),
           (t "crops", MetaVal.strList (c :: cs)),
           (t "year", MetaVal.intVal (AnswerGenerator.productionExtremesYear years))] } ∧
    (AnswerGenerator.handle_production_extremes [st] (c :: cs) years).sources.length = 1 := by
  have he : AnswerGenerator.handle_production_extremes [st] (c :: cs) years =
      { answer := AnswerGenerator.productionExtremesHeader c
          (AnswerGenerator.productionExtremesYear years)
        sources := [cropProductionCitationExtremes]
        metadata := some
          [(t "states", MetaVal.strList [st]),
           (t "crops", MetaVal.strList (c :: cs)),
           (t "year", MetaVal.intVal (AnswerGenerator.productionExtremesYear years))] } := by
    unfold AnswerGenerator.handle_production_extremes
    rw [if_neg (by simp), if_neg (by simp)]
    rfl
  exact ⟨he, by rw [he]; rfl⟩

/-- Claim C7: entity extraction returns exactly the canonical-order sublist
of the fixed 20-element lists whose lower-cased names occur as substrings of
the lower-cased query: filter characterisation, sublist (canonical order),
no duplicates, and a membership criterion with no word-boundary test. -/
theorem extract_entities_canonical (q : List Char) :
    QueryParser.extract_states q =
      QueryParser.STATES.filter (fun s => containsSub (lowerL q) (lowerL s)) ∧
    QueryParser.extract_crops q =
      QueryParser.CROPS.filter (fun c => containsSub (lowerL q) (lowerL c)) ∧
    (QueryParser.extract_states q).Sublist QueryParser.STATES ∧
    (QueryParser.extract_crops q).Sublist QueryParser.CROPS ∧
    (QueryParser.extract_states q).Nodup ∧
    (QueryParser.extract_crops q).Nodup ∧
    QueryParser.STATES.length = 20 ∧ QueryParser.CROPS.length = 20 ∧
    (∀ s, s ∈ QueryParser.extract_states q ↔
      s ∈ QueryParser.STATES ∧ containsSub (lowerL q) (lowerL s) = true) ∧
    (∀ c, c ∈ QueryParser.extract_crops q ↔
      c ∈ QueryParser.CROPS ∧ containsSub (lowerL q) (lowerL c) = true) := by
  refine ⟨rfl, rfl, List.filter_sublist _, List.filter_sublist _,
    List.Nodup.filter _ (by decide), List.Nodup.filter _ (by decide),
    by decide, by decide, ?_, ?_⟩
  · intro s
    unfold QueryParser.extract_states
    simp [List.mem_filter]
  · intro c
    unfold QueryParser.extract_crops
    simp [List.mem_filter]

/-- When some years were extracted, the years part belongs to
`context_parts` and carries the `Years:` label at its head. -/
theorem generalContext_contains_years (states crops : List (List Char))
    {years : List Int} (hy : years ≠ []) :
    containsSub (AnswerGenerator.generalContext states crops years)
      (t "Years:") = true := by
  have hyE : ¬ (years.isEmpty = true) := by
    simp [List.isEmpty_iff, hy]
  have hmem : (t "Years: " ++ joinSep (t ", ") (years.map intToStr)) ∈
      AnswerGenerator.generalContextParts states crops years := by
    unfold AnswerGenerator.generalContextParts
    rw [if_neg hyE]
    simp
  have hstart : startsWithL
      (t "Years: " ++ joinSep (t ", ") (years.map intToStr)) (t "Years:") = true := by
    have e1 : t "Years:" ++ t " " = t "Years: " := by decide
    have e2 : t "Years: " ++ joinSep (t ", ") (years.map intToStr) =
        t "Years:" ++ (t " " ++ joinSep (t ", ") (years.map intToStr)) := by
      rw [← e1, List.append_assoc]
    rw [e2]
    exact startsWithL_append _ _
  have hpartsne : ¬ ((AnswerGenerator.generalContextParts states crops years).isEmpty = true) := by
    simp only [List.isEmpty_iff]
    exact List.ne_nil_of_mem hmem
  unfold AnswerGenerator.generalContext
  rw [if_neg hpartsne]
  exact containsSub_joinSep hmem (containsSub_of_startsWithL hstart)

/-- Claim C8: `answer_query` routes rainfall_comparison, production_extremes
and production_query to their dedicated handlers, and every other
classification — including trend_analysis and rainfall_query, which have no
dedicated handler — to the general handler; exactly one handler result is
returned per call. -/
theorem answer_query_dispatch (q : List Char) :
    (QueryParser.classify_query q = t "rainfall_comparison" →
      AnswerGenerator.answer_query q =
        AnswerGenerator.handle_rainfall_comparison
          (QueryParser.extract_states q) (QueryParser.extract_years q)) ∧
    (QueryParser.classify_query q = t "production_extremes" →
      AnswerGenerator.answer_query q =
        AnswerGenerator.handle_production_extremes
          (QueryParser.extract_states q) (QueryParser.extract_crops q)
          (QueryParser.extract_years q)) ∧
    (QueryParser.classify_query q = t "production_query" →
      AnswerGenerator.answer_query q =
        AnswerGenerator.handle_production_query
          (QueryParser.extract_states q) (QueryParser.extract_crops q)
          (QueryParser.extract_years q)) ∧
    (QueryParser.classify_query q = t "trend_analysis" →
      AnswerGenerator.answer_query q =
        AnswerGenerator.handle_general q
          (QueryParser.extract_states q) (QueryParser.extract_crops q)
          (QueryParser.extract_years q)) ∧
    (QueryParser.classify_query q = t "rainfall_query" →
      AnswerGenerator.answer_query q =
        AnswerGenerator.handle_general q
          (QueryParser.extract_states q) (QueryParser.extract_crops q)
          (QueryParser.extract_years q)) ∧
    (QueryParser.classify_query q = t "general" →
      AnswerGenerator.answer_query q =
        AnswerGenerator.handle_general q
          (QueryParser.extract_states q) (QueryParser.extract_crops q)
          (QueryParser.extract_years q)) ∧
    (QueryParser.classify_query q ≠ t "rainfall_comparison" →
      QueryParser.classify_query q ≠ t "production_extremes" →
      QueryParser.classify_query q ≠ t "production_query" →
      AnswerGenerator.answer_query q =
        AnswerGenerator.handle_general q
          (QueryParser.extract_states q) (QueryParser.extract_crops q)
          (QueryParser.extract_years q)) := by
  refine ⟨fun h => answer_query_eq_rc h, fun h => answer_query_eq_pe h,
    fun h => answer_query_eq_pq h, ?_, ?_, ?_,
    fun h1 h2 h3 => answer_query_eq_general h1 h2 h3⟩
  · intro h
    exact answer_query_eq_general
      (by rw [h]; decide) (by rw [h]; decide) (by rw [h]; decide)
  · intro h
    exact answer_query_eq_general
      (by rw [h]; decide) (by rw [h]; decide) (by rw [h]; decide)
  · intro h
    exact answer_query_eq_general
      (by rw [h]; decide) (by rw [h]; decide) (by rw [h]; decide)

/-- Witness for C8: a trend query falls through to the general handler. -/
theorem answer_query_dispatch_witness :
    AnswerGenerator.answer_query (t "trend") =
      AnswerGenerator.handle_general (t "trend")
        (QueryParser.extract_states (t "trend"))
        (QueryParser.extract_crops (t "trend"))
        (QueryParser.extract_years (t "trend")) :=
  (answer_query_dispatch (t "trend")).2.2.2.1 (by decide)

/-- Claim C9: `answer_query` is deterministic — it is a pure function of the
query string, so identical inputs give identical answer text, sources and
metadata; no output depends on time, randomness or prior calls. -/
theorem answer_query_deterministic (q1 q2 : List Char) (h : q1 = q2) :
    AnswerGenerator.answer_query q1 = AnswerGenerator.answer_query q2 ∧
    (AnswerGenerator.answer_query q1).answer =
      (AnswerGenerator.answer_query q2).answer ∧
    (AnswerGenerator.answer_query q1).sources =
      (AnswerGenerator.answer_query q2).sources ∧
    (AnswerGenerator.answer_query q1).metadata =
      (AnswerGenerator.answer_query q2).metadata := by
  subst h
  exact ⟨rfl, rfl, rfl, rfl⟩

/-- Witness for C9 at a concrete repeated query. -/
theorem answer_query_deterministic_witness :
    (AnswerGenerator.answer_query (t "hello")).answer =
      (AnswerGenerator.answer_query (t "hello")).answer :=
  (answer_query_deterministic (t "hello") (t "hello") rfl).2.1

/-- Claim C10: for every query reaching the general handler through
`answer_query`, the detected-context line contains a `Years:` segment and
the fallback text "General inquiry" is never produced, because
`extract_years` never returns an empty list; the fallback branch of
`handle_general` is unreachable via `answer_query`. -/
theorem general_handler_never_fallback (q : List Char) :
    AnswerGenerator.generalContext (QueryParser.extract_states q)
        (QueryParser.extract_crops q) (QueryParser.extract_years q) ≠
      t "General inquiry" ∧
    containsSub
      (AnswerGenerator.generalContext (QueryParser.extract_states q)
        (QueryParser.extract_crops q) (QueryParser.extract_years q))
      (t "Years:") = true ∧
    containsSub
      ((AnswerGenerator.handle_general q (QueryParser.extract_states q)
        (QueryParser.extract_crops q) (QueryParser.extract_years q)).answer)
      (t "Years:") = true ∧
    (QueryParser.classify_query q ≠ t "rainfall_comparison" →
      QueryParser.classify_query q ≠ t "production_extremes" →
      QueryParser.classify_query q ≠ t "production_query" →
      containsSub ((AnswerGenerator.answer_query q).answer) (t "Years:") = true) := by
  have hy : QueryParser.extract_years q ≠ [] := extract_years_ne_nil q
  have hctx := generalContext_contains_years
    (QueryParser.extract_states q) (QueryParser.extract_crops q) hy
  have hans : containsSub
      ((AnswerGenerator.handle_general q (QueryParser.extract_states q)
        (QueryParser.extract_crops q) (QueryParser.extract_years q)).answer)
      (t "Years:") = true := by
    unfold AnswerGenerator.handle_general
    exact containsSub_append_left _ (containsSub_append_right _ hctx)
  refine ⟨?_, hctx, hans, ?_⟩
  · exact ne_of_containsSub hctx (by decide)
  · intro h1 h2 h3
    rw [answer_query_eq_general h1 h2 h3]
    exact hans

/-- Witness for C10: a plain query routed to the general handler. -/
theorem general_handler_never_fallback_witness :
    containsSub ((AnswerGenerator.answer_query (t "hello there")).answer)
      (t "Years:") = true :=
  (general_handler_never_fallback (t "hello there")).2.2.2
    (by decide) (by decide) (by decide)

/-- Witness for C6 at a concrete one-state call. -/
theorem production_extremes_single_state_witness :
    (AnswerGenerator.handle_production_extremes [t "Punjab"] [t "Wheat"]
      [2023]).sources.length = 1 :=
  (production_extremes_single_state (t "Punjab") (t "Wheat") [] [2023]).2

/-- Witness for C7 at a concrete query. -/
theorem extract_entities_canonical_witness :
    QueryParser.extract_states (t "rice in punjab and haryana") =
      QueryParser.STATES.filter
        (fun s => containsSub (lowerL (t "rice in punjab and haryana")) (lowerL s)) :=
  (extract_entities_canonical (t "rice in punjab and haryana")).1
